import Mathlib

/-!
A shallow embedding of the core framework of the `Michaelrbacu/website`
repository: the service registry / dependency-injection container
(`ServiceContainer` in `service.module.js`), the component base abstraction
(`BaseComponent` and `ComponentRegistry` in `component.module.js`), and the
bootstrap sequencer (`ApplicationBootstrapper` in `bootstrap.module.js`).

JavaScript values that the embedded operations inspect are modelled by
`JSVal`: primitives carry their value, objects carry a reference identity
(`ref`) plus an abstract payload describing their contents, since JavaScript
strict equality (`===` / `!==`) compares objects by reference while the
specification speaks of value equality.  Numbers are modelled as integers
(the embedded claims only involve integer-valued numbers).  JavaScript
objects used as dictionaries (`state`, partial updates, dependency bundles)
are modelled as association lists in insertion order, matching `for ... in`
iteration order over string keys.
-/

/-- A JavaScript value, as far as the embedded operations inspect one.
`obj ref payload` is an object with reference identity `ref` and contents
abstracted as `payload`. -/
inductive JSVal : Type where
  | undef : JSVal
  | null : JSVal
  | bool : Bool → JSVal
  | num : Int → JSVal
  | str : String → JSVal
  | obj : Nat → String → JSVal
deriving DecidableEq, Repr

/-- JavaScript strict equality `===`: primitives compare by value, objects by
reference identity (the payload is ignored). -/
def jsStrictEq : JSVal → JSVal → Bool
  | .undef, .undef => true
  | .null, .null => true
  | .bool a, .bool b => a == b
  | .num a, .num b => a == b
  | .str a, .str b => a == b
  | .obj r _, .obj r' _ => r == r'
  | _, _ => false

/-- Modelled from the spec: the value equality the specification's
change-detection sentence speaks of ("differs (by value, not object
identity)").  Objects compare by payload, not by reference. -/
def valueEqSpec : JSVal → JSVal → Bool
  | .undef, .undef => true
  | .null, .null => true
  | .bool a, .bool b => a == b
  | .num a, .num b => a == b
  | .str a, .str b => a == b
  | .obj _ p, .obj _ p' => p == p'
  | _, _ => false

/-- JavaScript truthiness of a value (`if (v)`, `v || w`). -/
def truthy : JSVal → Bool
  | .undef => false
  | .null => false
  | .bool b => b
  | .num n => n != 0
  | .str s => s != ""
  | .obj _ _ => true

/-- A JavaScript object used as a dictionary: an association list of
string keys to values, in insertion order. -/
abbrev JSObj := List (String × JSVal)

/-- Property read `o[k]`: the bound value, or `undefined` when `k` is absent
(first binding wins; a JavaScript object never holds two bindings for one
key). -/
def jsIndex : JSObj → String → JSVal
  | [], _ => .undef
  | (k', v) :: rest, k => if k' == k then v else jsIndex rest k

/-- Property write `o[k] = v`: replaces the existing binding in place, or
appends a fresh one. -/
def jsAssign (o : JSObj) (k : String) (v : JSVal) : JSObj :=
  match o with
  | [] => [(k, v)]
  | (k', v') :: rest =>
      if k' == k then (k, v) :: rest else (k', v') :: jsAssign rest k v

/-- The side effects `BaseComponent.setState` can perform: the `onChanges`
hook (receiving the changes record: key, old value, new value, in iteration
order) and the `render` hook. -/
inductive SEvent : Type where
  | onChanges : List (String × JSVal × JSVal) → SEvent
  | render : SEvent
deriving DecidableEq, Repr

/-- The `for (let key in newState)` loop of `BaseComponent.setState`
(component.module.js, lines 44-56): for each key of the partial update whose
current value differs by `!==` from the new value, record
`{ old: this.state[key], new: newState[key] }` and assign the new value into
`state`.  Returns the updated state and the changes record. -/
def setStateLoop : JSObj → JSObj → JSObj × List (String × JSVal × JSVal)
  | st, [] => (st, [])
  | st, (k, v) :: rest =>
      if jsStrictEq (jsIndex st k) v then
        setStateLoop st rest
      else
        let old := jsIndex st k
        let st' := jsAssign st k v
        let r := setStateLoop st' rest
        (r.1, (k, old, v) :: r.2)

/-- Embeds `BaseComponent.setState(newState)`: run the change-detection loop, then,
iff the changes record is non-empty, invoke `onChanges(changes)` followed by
`render()`.  Returns the updated state, the changes record, and the emitted
hook invocations in order. -/
def setState (st : JSObj) (newState : JSObj) :
    JSObj × List (String × JSVal × JSVal) × List SEvent :=
  let r := setStateLoop st newState
  if r.2.length > 0 then
    (r.1, r.2, [SEvent.onChanges r.2, SEvent.render])
  else
    (r.1, r.2, [])

/-- Embeds `BaseComponent.getService(serviceName)` (component.module.js, lines
61-63): `this.dependencies[serviceName] || null`. -/
def getService (dependencies : JSObj) (serviceName : String) : JSVal :=
  let v := jsIndex dependencies serviceName
  if truthy v then v else .null

/-- Modelled from the spec: the change record the specification's step 1
describes, computed against the pre-update state throughout — "the set of
keys in `partialUpdate` whose value differs ... from the current `state`" —
here instantiated with JavaScript strict equality, which is what the code's
`!==` test actually performs. -/
def changesByStrictEq (st : JSObj) : JSObj → List (String × JSVal × JSVal)
  | [] => []
  | (k, v) :: rest =>
      if jsStrictEq (jsIndex st k) v then changesByStrictEq st rest
      else (k, jsIndex st k, v) :: changesByStrictEq st rest

theorem jsIndex_jsAssign_self (st : JSObj) (k : String) (v : JSVal) :
    jsIndex (jsAssign st k v) k = v := by
  induction st with
  | nil => simp [jsAssign, jsIndex]
  | cons p rest ih =>
    obtain ⟨k', v'⟩ := p
    by_cases hk : k' = k
    · simp [jsAssign, jsIndex, hk]
    · simp [jsAssign, jsIndex, hk, ih]

theorem jsIndex_jsAssign_ne (st : JSObj) (k : String) (v : JSVal)
    (k' : String) (h : k' ≠ k) :
    jsIndex (jsAssign st k v) k' = jsIndex st k' := by
  have h' : k ≠ k' := Ne.symm h
  induction st with
  | nil => simp [jsAssign, jsIndex, h']
  | cons p rest ih =>
    obtain ⟨k'', v''⟩ := p
    by_cases hk : k'' = k
    · subst hk
      simp [jsAssign, jsIndex, h']
    · simp [jsAssign, jsIndex, hk, ih]

theorem changesByStrictEq_congr (st st' : JSObj) (upd : JSObj)
    (h : ∀ q ∈ upd, jsIndex st q.1 = jsIndex st' q.1) :
    changesByStrictEq st upd = changesByStrictEq st' upd := by
  induction upd with
  | nil => rfl
  | cons q rest ih =>
    obtain ⟨k, v⟩ := q
    have hk : jsIndex st k = jsIndex st' k := h (k, v) (List.mem_cons_self _ _)
    have hrest : ∀ q ∈ rest, jsIndex st q.1 = jsIndex st' q.1 :=
      fun q hq => h q (List.mem_cons_of_mem _ hq)
    simp only [changesByStrictEq, hk, ih hrest]

/-- With no duplicate keys in the partial update, the changes record built by
the `setState` loop coincides with the record computed against the pre-update
state by strict equality. -/
theorem setStateLoop_snd (upd : JSObj) (st : JSObj)
    (h : (upd.map Prod.fst).Nodup) :
    (setStateLoop st upd).2 = changesByStrictEq st upd := by
  induction upd generalizing st with
  | nil => rfl
  | cons q rest ih =>
    obtain ⟨k, v⟩ := q
    simp only [List.map_cons, List.nodup_cons] at h
    obtain ⟨hk, hnd⟩ := h
    cases hc : jsStrictEq (jsIndex st k) v with
    | true =>
      simp only [setStateLoop, changesByStrictEq, hc, if_true]
      exact ih st hnd
    | false =>
      simp only [setStateLoop, changesByStrictEq, hc, Bool.false_eq_true,
        if_false, List.cons.injEq, true_and]
      rw [ih (jsAssign st k v) hnd]
      have hfix : ∀ q ∈ rest, jsIndex (jsAssign st k v) q.1 = jsIndex st q.1 := by
        intro q hq
        refine jsIndex_jsAssign_ne st k v q.1 (fun hqk => hk ?_)
        exact hqk ▸ List.mem_map_of_mem Prod.fst hq
      rw [changesByStrictEq_congr _ _ _ hfix]

/-!  Embedding of `ServiceContainer` (service.module.js, lines 7-23).  Service instances
are modelled as `JSVal` objects.  The container's console output is tracked
explicitly so that "is an overwrite logged" is a statable property: `register`
is exactly `this.services.set(name, service)` and writes nothing to the
console; `get` warns (message content elided of quotes) and returns `null`
when the name is unknown.  A JavaScript `Map` has the same
replace-in-place-or-append / first-binding-wins semantics as `jsAssign` /
`jsIndex`. -/

structure ServiceContainer : Type where
  services : List (String × JSVal)
  consoleLog : List String
deriving DecidableEq, Repr

/-- Embeds `ServiceContainer.register(name, service)`: `this.services.set(name,
service)`.  No console output. -/
def ServiceContainer.register (c : ServiceContainer) (name : String)
    (service : JSVal) : ServiceContainer :=
  { c with services := jsAssign c.services name service }

/-- Embeds `ServiceContainer.get(name)`: warn and return `null` when the name is not
in the map, else return the stored instance. -/
def ServiceContainer.get (c : ServiceContainer) (name : String) :
    ServiceContainer × JSVal :=
  if c.services.any (fun p => p.1 == name) then
    (c, jsIndex c.services name)
  else
    ({ c with consoleLog :=
        c.consoleLog ++ ["Service " ++ name ++ " not found in container"] },
     JSVal.null)

theorem jsAssign_any_key (o : JSObj) (k : String) (v : JSVal) :
    (jsAssign o k v).any (fun p => p.1 == k) = true := by
  induction o with
  | nil => simp [jsAssign]
  | cons p rest ih =>
    obtain ⟨k', v'⟩ := p
    by_cases hk : k' = k
    · simp [jsAssign, hk]
    · simp [jsAssign, hk, ih]

/-- C1 (counterexample): a key whose new value is a distinct but value-equal
object (same payload, different reference) IS counted as changed by
`setState` — the changes record is non-empty and `render` fires — refuting
the claim that the changed-key set is computed by value equality. -/
theorem setState_distinct_ref_value_equal_object_is_changed :
    valueEqSpec (jsIndex [("a", JSVal.obj 0 "x")] "a") (JSVal.obj 1 "x") = true ∧
    (setState [("a", JSVal.obj 0 "x")] [("a", JSVal.obj 1 "x")]).2.1 ≠ [] ∧
    SEvent.render ∈ (setState [("a", JSVal.obj 0 "x")] [("a", JSVal.obj 1 "x")]).2.2 := by
  decide

/-- C1 (amended): for every state and every partial update without duplicate
keys, `setState` computes the changed-key record as exactly the entries of
the update whose value differs from the current state entry by JavaScript
strict equality (reference identity for objects, not value equality), and
invokes `onChanges` then `render` exactly when that record is non-empty —
returning with no hook invocation when it is empty. -/
theorem setState_changes_are_strict_inequality (st upd : JSObj)
    (h : (upd.map Prod.fst).Nodup) :
    (setState st upd).2.1 = changesByStrictEq st upd ∧
    (setState st upd).2.2 =
      (if changesByStrictEq st upd = [] then []
       else [SEvent.onChanges (changesByStrictEq st upd), SEvent.render]) := by
  have hl := setStateLoop_snd upd st h
  by_cases he : changesByStrictEq st upd = []
  · rw [he] at hl
    simp [setState, hl, he]
  · have hlen : 0 < (changesByStrictEq st upd).length := List.length_pos.mpr he
    simp [setState, hl, he, hlen]

/-- Witness for `setState_changes_are_strict_inequality` at a concrete
state and update. -/
theorem setState_changes_are_strict_inequality_witness :
    ((([("b", JSVal.num 2)] : JSObj).map Prod.fst).Nodup) ∧
    ((setState [] [("b", JSVal.num 2)]).2.1 =
        changesByStrictEq [] [("b", JSVal.num 2)] ∧
      (setState [] [("b", JSVal.num 2)]).2.2 =
        (if changesByStrictEq [] [("b", JSVal.num 2)] = [] then []
         else [SEvent.onChanges (changesByStrictEq [] [("b", JSVal.num 2)]),
               SEvent.render])) :=
  ⟨by decide, setState_changes_are_strict_inequality [] [("b", JSVal.num 2)] (by decide)⟩

/-- C7: when the current value of key `a` is not (strictly equal to) `1`,
`setState({a: 1})` records exactly the one change `{a: {old, new: 1}}`,
invokes `onChanges` with that record exactly once and then `render` exactly
once, and leaves `state.a === 1`. -/
theorem setState_single_key_change (st : JSObj)
    (h : jsStrictEq (jsIndex st "a") (JSVal.num 1) = false) :
    (setState st [("a", JSVal.num 1)]).2.1 =
      [("a", jsIndex st "a", JSVal.num 1)] ∧
    (setState st [("a", JSVal.num 1)]).2.2 =
      [SEvent.onChanges [("a", jsIndex st "a", JSVal.num 1)], SEvent.render] ∧
    jsIndex (setState st [("a", JSVal.num 1)]).1 "a" = JSVal.num 1 := by
  simp [setState, setStateLoop, h, jsIndex_jsAssign_self]

/-- Witness for `setState_single_key_change` at the empty state. -/
theorem setState_single_key_change_witness :
    jsStrictEq (jsIndex [] "a") (JSVal.num 1) = false ∧
    ((setState [] [("a", JSVal.num 1)]).2.1 =
        [("a", jsIndex [] "a", JSVal.num 1)] ∧
      (setState [] [("a", JSVal.num 1)]).2.2 =
        [SEvent.onChanges [("a", jsIndex [] "a", JSVal.num 1)], SEvent.render] ∧
      jsIndex (setState [] [("a", JSVal.num 1)]).1 "a" = JSVal.num 1) :=
  ⟨by decide, setState_single_key_change [] (by decide)⟩

/-- C10: `BaseComponent.getService(name)` returns `null` whenever the
dependency bundle binds `name` to a falsy value — `null`, `false`, `0`, the
empty string — and likewise when `name` is absent (index yields `undefined`),
so a registered-but-falsy dependency is indistinguishable from an absent one
at this interface. -/
theorem getService_falsy_indistinguishable_from_absent
    (dependencies : JSObj) (name : String)
    (h : jsIndex dependencies name = JSVal.undef ∨
         jsIndex dependencies name = JSVal.null ∨
         jsIndex dependencies name = JSVal.bool false ∨
         jsIndex dependencies name = JSVal.num 0 ∨
         jsIndex dependencies name = JSVal.str "") :
    getService dependencies name = JSVal.null := by
  rcases h with h | h | h | h | h <;> simp [getService, truthy, h]

/-- Witness for `getService_falsy_indistinguishable_from_absent`: a bundle
binding a name to `0`. -/
theorem getService_falsy_witness :
    (jsIndex [("svc", JSVal.num 0)] "svc" = JSVal.undef ∨
     jsIndex [("svc", JSVal.num 0)] "svc" = JSVal.null ∨
     jsIndex [("svc", JSVal.num 0)] "svc" = JSVal.bool false ∨
     jsIndex [("svc", JSVal.num 0)] "svc" = JSVal.num 0 ∨
     jsIndex [("svc", JSVal.num 0)] "svc" = JSVal.str "") ∧
    getService [("svc", JSVal.num 0)] "svc" = JSVal.null :=
  ⟨by decide,
   getService_falsy_indistinguishable_from_absent [("svc", JSVal.num 0)] "svc" (by decide)⟩

/-- C6 (counterexample): registering two services under the same name leaves
the second resolvable, but the overwrite happens silently — after both
registrations the container has written nothing to the console, refuting
"the overwrite is logged as a conflict". -/
theorem register_overwrite_is_silent :
    ((((ServiceContainer.mk [] []).register "blog" (JSVal.obj 0 "s1")).register
        "blog" (JSVal.obj 1 "s2")).get "blog").2 = JSVal.obj 1 "s2" ∧
    (((ServiceContainer.mk [] []).register "blog" (JSVal.obj 0 "s1")).register
        "blog" (JSVal.obj 1 "s2")).consoleLog = [] := by
  decide

/-- C6 (amended): for every container, name and pair of services, registering
`s1` then `s2` under the same name leaves only `s2` resolvable — `get`
returns `s2`, never the stale `s1` — and the overwrite is silent: `register`
writes nothing to the console. -/
theorem register_last_write_wins (c : ServiceContainer) (name : String)
    (s1 s2 : JSVal) :
    (((c.register name s1).register name s2).get name).2 = s2 ∧
    ((c.register name s1).register name s2).consoleLog = c.consoleLog := by
  constructor
  · simp [ServiceContainer.register, ServiceContainer.get,
      jsAssign_any_key, jsIndex_jsAssign_self]
  · rfl

/-!  Embedding of `ComponentRegistry` (component.module.js, lines 369-397).  The document
is modelled as the list of selectors on which `document.querySelector`
succeeds.  A registered constructor is abstracted to the mount-point selector
the concrete class fixes in its `super(...)` call; `create` cannot fail
inside `initializeAll` because it iterates the registry map itself, so a
registered name is always found.  `BaseComponent.initialize` resolves the
mount point, reports `false` (after a console warning) when it is absent, and
otherwise runs `onInit`, `render`, `onAfterViewInit` and reports `true`; the
model is a total function, mirroring that the failure path returns rather
than throws. -/

/-- The selectors the live document resolves. -/
abbrev Doc := List String

/-- A registered component constructor: registry key and the mount-point
selector the class mounts on. -/
structure CompCtor : Type where
  name : String
  selector : String
deriving DecidableEq, Repr

/-- An instantiated component, restricted to the fields
`ComponentRegistry.initializeAll` observes. -/
structure CompInstance : Type where
  ctor : CompCtor
  element : Option String
deriving DecidableEq, Repr

/-- Embeds `BaseComponent.initialize()` for an instance of `c`: resolve the mount
point against the document; `false` when absent, else hooks run and `true`. -/
def initializeInstance (doc : Doc) (c : CompCtor) : CompInstance × Bool :=
  if doc.contains c.selector then
    ({ ctor := c, element := some c.selector }, true)
  else
    ({ ctor := c, element := none }, false)

/-- Embeds `ComponentRegistry.initializeAll(dependencies)`: for each registered
constructor in insertion order, create an instance and push it onto the
result exactly when its `initialize()` reports `true`. -/
def initializeAll (doc : Doc) (registered : List CompCtor) : List CompInstance :=
  registered.foldl
    (fun instances c =>
      let r := initializeInstance doc c
      if r.2 then instances ++ [r.1] else instances)
    []

theorem initializeAll_go (doc : Doc) (registered : List CompCtor)
    (acc : List CompInstance) :
    registered.foldl
      (fun instances c =>
        let r := initializeInstance doc c
        if r.2 then instances ++ [r.1] else instances)
      acc =
    acc ++ (registered.filter (fun c => doc.contains c.selector)).map
      (fun c => { ctor := c, element := some c.selector }) := by
  induction registered generalizing acc with
  | nil => simp
  | cons c rest ih =>
    rw [List.foldl_cons, ih]
    by_cases hc : c.selector ∈ doc
    · simp [initializeInstance, hc, List.filter_cons]
    · simp [initializeInstance, hc, List.filter_cons]

/-- C4: `initializeAll` returns exactly the instances whose `initialize()`
succeeded — the registered components whose mount point resolves, in
registration order — excluding every instance whose mount-point resolution
failed; per-component success is exactly mount-point resolution (failure is a
`false` report, and the model being a total function reflects that nothing is
thrown), and one component's failure does not prevent the creation and
initialization of the remaining registered components. -/
theorem initializeAll_exactly_successful (doc : Doc)
    (registered : List CompCtor) :
    initializeAll doc registered =
      (registered.filter (fun c => doc.contains c.selector)).map
        (fun c => { ctor := c, element := some c.selector }) ∧
    ∀ c ∈ registered,
      (initializeInstance doc c).2 = doc.contains c.selector := by
  constructor
  · simpa [initializeAll] using initializeAll_go doc registered []
  · intro c _
    by_cases hc : c.selector ∈ doc <;> simp [initializeInstance, hc]

/-!  Embedding of `ApplicationBootstrapper` (bootstrap.module.js, lines 458-739) and the
concrete components/services it wires.  Service instances in the global
container are modelled by their reference identity (a `Nat`).  The
environment a run observes — which services were registered by
service.module.js before `bootstrap()` ran, which selectors the document
resolves, whether the optional collaborators exist or fail — is a `World`.
Console/notification strings are elided of their quote characters. -/

/-- One court case record, as returned by `CourtService.getCases()`
(service.module.js).  `case_type` embeds the source's `type` field. -/
structure Case : Type where
  case_name : String
  docket_number : String
  court : String
  date_filed : String
  judge : String
  parties : List String
  summary : String
  case_type : String
  status : String
deriving DecidableEq, Repr

/-- Embeds `CourtService.getCases()`: the fixed three-case list the service returns
on every call. -/
def CourtService.getCases : List Case :=
  [{ case_name := "Securities & Exchange Commission v. FTX Trading Ltd.",
     docket_number := "2024-SDNY-11547",
     court := "US District Court, Southern District of New York",
     date_filed := "2022-11-08",
     judge := "Judge John J. Kaplan",
     parties := ["Securities & Exchange Commission", "FTX Trading Ltd.",
                 "Sam Bankman-Fried"],
     summary := "High-profile cryptocurrency fraud case. Securities violations, wire fraud, and conspiracy charges involving billions in customer funds. Judge Kaplan presiding.",
     case_type := "Criminal",
     status := "Active" },
   { case_name := "United States v. Bankman-Fried, Samuel",
     docket_number := "2024-USDC-SDNY-845",
     court := "US District Court, Southern District of New York",
     date_filed := "2022-12-13",
     judge := "Judge John J. Kaplan",
     parties := ["United States", "Samuel Bankman-Fried"],
     summary := "Criminal prosecution of FTX founder. Wire fraud, money laundering, and conspiracy. Judge Kaplan overseeing trial.",
     case_type := "Criminal",
     status := "Active" },
   { case_name := "Federal Trade Commission v. TechCorp Inc.",
     docket_number := "2024-NDCA-8901",
     court := "US District Court, Northern District of California",
     date_filed := "2024-01-20",
     judge := "Judge Elena Rodriguez",
     parties := ["Federal Trade Commission", "TechCorp Inc."],
     summary := "Antitrust case involving alleged monopolistic practices in the technology sector.",
     case_type := "Civil",
     status := "Ongoing" }]

/-- Lookup in a name-keyed map of service references (JavaScript `Map.get`
plus `has`: `none` when absent). -/
def lookupName : List (String × Nat) → String → Option Nat
  | [], _ => none
  | (k', v) :: rest, k => if k' == k then some v else lookupName rest k

/-- The fixed required-service list checked by
`ApplicationBootstrapper.initializeServices` (bootstrap.module.js line 514);
`getComponentDependencies` (lines 596-605) binds the same six names. -/
def requiredServices : List String :=
  ["blog", "crypto", "court", "theme", "space", "notification"]

/-- The dependency bundle built by `getComponentDependencies`: a fresh object
(identity `allocId`) binding each of the six service names to the container's
current instance (`none` models `null` for an unregistered name). -/
structure Bundle : Type where
  allocId : Nat
  entries : List (String × Option Nat)
deriving DecidableEq, Repr

/-- Embeds `ApplicationBootstrapper.getComponentDependencies()`, allocating the
object with identity `allocId`. -/
def getComponentDependencies (registry : List (String × Nat)) (allocId : Nat) :
    Bundle :=
  { allocId := allocId,
    entries := requiredServices.map (fun n => (n, lookupName registry n)) }

/-- Reading a service out of a bundle by name. -/
def Bundle.getDep (b : Bundle) (n : String) : Option Nat :=
  match b.entries.find? (fun p => p.1 == n) with
  | some p => p.2
  | none => none

/-- The four concrete component classes registered by
`initializeComponents`. -/
inductive CKind : Type where
  | blog | crypto | court | admin
deriving DecidableEq, Repr

/-- The mount-point selector each concrete class fixes in its `super` call. -/
def selectorOf : CKind → String
  | .blog => "#blog-section"
  | .crypto => "#crypto-section"
  | .court => "#court-section"
  | .admin => "#admin-section"

/-- A constructed component instance, restricted to the fields the bootstrap
claims observe.  `cases`/`filteredCases` carry `CourtComponent` data; the
blog/crypto/admin hooks load data external to this model (storage, a
simulated async feed, nothing), tracked only through `onInitRan`. -/
structure BootComp : Type where
  kind : CKind
  selector : String
  deps : Bundle
  element : Option String
  onInitRan : Bool
  renderCount : Nat
  cases : List Case
  filteredCases : List Case
deriving DecidableEq, Repr

/-- Embeds `new Component(dependencies)`: the constructor stores the selector and
the bundle; no mount point is resolved yet. -/
def newComp (k : CKind) (deps : Bundle) : BootComp :=
  { kind := k, selector := selectorOf k, deps := deps, element := none,
    onInitRan := false, renderCount := 0, cases := [], filteredCases := [] }

/-- Run the instance's `onInit` hook.  `CourtComponent.onInit`
(component.module.js lines 276-279) loads `courtService.getCases()` into
`cases` and `filteredCases`; the other three hooks touch no tracked field. -/
def runOnInit (c : BootComp) : BootComp :=
  match c.kind with
  | .court =>
      let cs := CourtService.getCases
      { c with onInitRan := true, cases := cs, filteredCases := cs }
  | _ => { c with onInitRan := true }

/-- Embeds `BaseComponent.initialize()` for a bootstrap-constructed instance:
resolve the mount point; on failure report `false` without hooks; on success
run `onInit`, `render`, `onAfterViewInit` and report `true`. -/
def initializeComp (doc : List String) (c : BootComp) : BootComp × Bool :=
  if doc.contains c.selector then
    let c1 := runOnInit { c with element := some c.selector }
    ({ c1 with renderCount := c1.renderCount + 1 }, true)
  else
    ({ c with element := none }, false)

/-- One step of the loop over `['blog', 'crypto', 'admin']` in
`initializeComponents` (bootstrap.module.js lines 575-581): create the
instance with the shared bundle and push it exactly when `initialize()`
reports `true`. -/
def initStep (doc : List String) (b : Bundle) (acc : List BootComp)
    (k : CKind) : List BootComp :=
  let r := initializeComp doc (newComp k b)
  if r.2 then acc ++ [r.1] else acc

/-- The outcome of bootstrap stage 3. -/
structure Stage3Result : Type where
  components : List BootComp
  windowCourtComponent : Option BootComp
  bundle : Bundle
  bundleAllocs : Nat
deriving DecidableEq, Repr

/-- Embeds `ApplicationBootstrapper.initializeComponents()` (bootstrap.module.js
lines 548-591): build the dependency bundle once, initialize blog, crypto and
admin fully, then construct the court component, call only its `onInit` (its
mount point does not exist yet), expose it as `window.courtComponent`, and
push it onto the component list as well.  `bundleAllocs` counts the
`getComponentDependencies` calls made (the single call site). -/
def initializeComponents (w : List (String × Nat)) (doc : List String) :
    Stage3Result :=
  let componentDeps := getComponentDependencies w 0
  let comps := [CKind.blog, CKind.crypto, CKind.admin].foldl
    (initStep doc componentDeps) []
  let courtComponent := runOnInit (newComp CKind.court componentDeps)
  { components := comps ++ [courtComponent],
    windowCourtComponent := some courtComponent,
    bundle := componentDeps,
    bundleAllocs := 1 }

/-- The environment one `bootstrap()` run observes. -/
structure World : Type where
  /-- Contents of the global service container when `bootstrap()` starts
  (service.module.js registers the six services at module load). -/
  registry : List (String × Nat)
  /-- Selectors the document resolves during the run. -/
  doc : List String
  /-- Whether a `.loading-text` element exists (for the on-screen fallback). -/
  hasLoadingText : Bool
  /-- Whether the global `initThreeJsScene` function is defined. -/
  threeJsDefined : Bool
  /-- Whether calling `initThreeJsScene()` throws/rejects. -/
  threeJsThrows : Bool
  /-- Whether `spaceService.loadSpaceImages()` rejects. -/
  spaceLoadRejects : Bool
  /-- Whether `cryptoService.loadCryptoData()` rejects. -/
  cryptoLoadRejects : Bool
deriving DecidableEq, Repr

/-- The sequencer's terminal condition: `isInitialized = true` is the READY
outcome; the `catch` branch of `bootstrap()` is the FAILED outcome. -/
inductive BootStatus : Type where
  | ready | failed
deriving DecidableEq, Repr

/-- The six stages of `bootstrap()`; a stage is recorded once it completes. -/
inductive BootStage : Type where
  | services | theme | components | scene3d | asyncData | completion
deriving DecidableEq, Repr

/-- The observable outcome of one `bootstrap()` run. -/
structure BootResult : Type where
  status : BootStatus
  isInitialized : Bool
  stagesCompleted : List BootStage
  components : List BootComp
  windowCourtComponent : Option BootComp
  bundle : Option Bundle
  bundleAllocs : Nat
  /-- Messages routed through `notificationService.error`. -/
  notificationErrors : List String
  /-- Replacement text of the `.loading-text` element, when set. -/
  loadingText : Option String
  consoleWarnings : List String
  /-- The service container contents after the run (never mutated by it). -/
  registryAfter : List (String × Nat)
deriving DecidableEq, Repr

/-- Embeds `ApplicationBootstrapper.initializeServices()` (bootstrap.module.js lines
503-522): verify each required name resolves, throwing at the first one that
does not.  `window.serviceContainer` itself always exists once
service.module.js is loaded. -/
def verifyServices (registry : List (String × Nat)) : Except String Unit :=
  match requiredServices.find? (fun s => (lookupName registry s).isNone) with
  | some s => .error ("Required service " ++ s ++ " not found")
  | none => .ok ()

/-- Embeds `ApplicationBootstrapper.handleBootstrapError(error)` (lines 670-681):
route the message through the notification service if that service resolves,
and replace the loading text if a `.loading-text` element exists. -/
def handleBootstrapError (w : World) (msg : String) (r : BootResult) :
    BootResult :=
  { r with
    status := BootStatus.failed
    isInitialized := false
    notificationErrors :=
      match lookupName w.registry "notification" with
      | some _ => r.notificationErrors ++ ["Bootstrap failed: " ++ msg]
      | none => r.notificationErrors
    loadingText :=
      if w.hasLoadingText then some "Initialization failed. Please refresh."
      else r.loadingText }

/-- Embeds `ApplicationBootstrapper.bootstrap()` (bootstrap.module.js lines
470-498): the six stages in order inside one `try`; any exception from stages
1-4 reaches the `catch` and `handleBootstrapError`.  Stage 2 (theme) throws
nothing once stage 1 has verified the theme service.  Stage 4
(`initialize3DScene`, lines 610-619) has no local `try`: it warns when the
global function is undefined but lets a thrown failure propagate.  Stage 5
(`loadAsyncData`, lines 624-639) wraps its `Promise.all` in `try`/`catch`
and only warns on failure. -/
def bootstrap (w : World) : BootResult :=
  let base : BootResult :=
    { status := BootStatus.failed, isInitialized := false,
      stagesCompleted := [], components := [], windowCourtComponent := none,
      bundle := none, bundleAllocs := 0, notificationErrors := [],
      loadingText := none, consoleWarnings := [], registryAfter := w.registry }
  match verifyServices w.registry with
  | .error msg => handleBootstrapError w msg base
  | .ok _ =>
    let s3 := initializeComponents w.registry w.doc
    let base3 : BootResult :=
      { base with
        stagesCompleted := [BootStage.services, BootStage.theme,
                            BootStage.components],
        components := s3.components,
        windowCourtComponent := s3.windowCourtComponent,
        bundle := some s3.bundle,
        bundleAllocs := s3.bundleAllocs }
    if w.threeJsDefined && w.threeJsThrows then
      handleBootstrapError w "3D scene failed" base3
    else
      let warn3d : List String :=
        if w.threeJsDefined then []
        else ["Three.js initialization function not found"]
      let warnAsync : List String :=
        if w.spaceLoadRejects || w.cryptoLoadRejects then
          ["Error loading async data"]
        else []
      { base3 with
        stagesCompleted := base3.stagesCompleted ++
          [BootStage.scene3d, BootStage.asyncData, BootStage.completion],
        consoleWarnings := warn3d ++ warnAsync,
        status := BootStatus.ready,
        isInitialized := true }

/-- Embeds `window.getAppService(name)` (bootstrap.module.js lines 729-731) once the
app instance exists: `app.getService(name)` =
`this.serviceContainer.get(name)`. -/
def getAppService (r : BootResult) (name : String) : Option Nat :=
  lookupName r.registryAfter name

/-!  Event-order model of `BaseComponent.initialize()` (component.module.js
lines 29-39) for a resolved mount point.  The body is
`this.onInit(); this.render(); this.onAfterViewInit();` with no `await`.
Under the JavaScript event loop, calling an `async` hook such as
`CryptoComponent.onInit` (lines 227-229) runs its body up to the first
`await` and returns a pending operation; that operation settles only in a
later microtask, after the current synchronous block — which includes the
`render()` and `onAfterViewInit()` calls — has finished.  A synchronous
`onInit` has settled as soon as its call returns. -/

/-- The observable events during one `initialize()` call. -/
inductive TraceEv : Type where
  | onInitCall
  | onInitSettle
  | renderCall
  | afterViewCall
deriving DecidableEq, Repr

/-- The synchronous event block of `initialize()` and the deferred microtask
events, for a component whose `onInit` is `async` (true) or plain (false). -/
def initializeEvents (asyncOnInit : Bool) : List TraceEv × List TraceEv :=
  if asyncOnInit then
    ([TraceEv.onInitCall, TraceEv.renderCall, TraceEv.afterViewCall],
     [TraceEv.onInitSettle])
  else
    ([TraceEv.onInitCall, TraceEv.onInitSettle, TraceEv.renderCall,
      TraceEv.afterViewCall], [])

/-- The full event order of `initialize()`: the synchronous block, then the
drained microtask queue. -/
def initializeTrace (asyncOnInit : Bool) : List TraceEv :=
  (initializeEvents asyncOnInit).1 ++ (initializeEvents asyncOnInit).2

/-- Shared helper: when every required service resolves,
`initializeServices` verifies without throwing. -/
theorem verifyServices_ok (reg : List (String × Nat))
    (hreq : ∀ s ∈ requiredServices, (lookupName reg s).isSome) :
    verifyServices reg = Except.ok () := by
  unfold verifyServices
  rw [List.find?_eq_none.mpr ?_]
  intro s hs
  have h := hreq s hs
  cases hl : lookupName reg s with
  | none => rw [hl] at h; simp at h
  | some v => simp [hl]

/-- Shared helper: the stage-3 outputs a successful verification hands to the
rest of `bootstrap()` survive into the result on both the ready path and the
3D-failure path. -/
theorem bootstrap_ok_stage3 (w : World)
    (hver : verifyServices w.registry = Except.ok ()) :
    (bootstrap w).components =
      (initializeComponents w.registry w.doc).components ∧
    (bootstrap w).windowCourtComponent =
      (initializeComponents w.registry w.doc).windowCourtComponent ∧
    (bootstrap w).bundle =
      some (initializeComponents w.registry w.doc).bundle ∧
    (bootstrap w).bundleAllocs =
      (initializeComponents w.registry w.doc).bundleAllocs := by
  simp only [bootstrap, hver]
  by_cases h3 : (w.threeJsDefined && w.threeJsThrows) = true
  · simp [h3, handleBootstrapError]
  · simp [h3]

/-- Shared helper: on the no-3D-failure path the run completes, READY, with
the stage-4/5 warnings collected. -/
theorem bootstrap_ok_ready (w : World)
    (hver : verifyServices w.registry = Except.ok ())
    (h3 : (w.threeJsDefined && w.threeJsThrows) = false) :
    (bootstrap w).status = BootStatus.ready ∧
    (bootstrap w).isInitialized = true ∧
    (bootstrap w).stagesCompleted =
      [BootStage.services, BootStage.theme, BootStage.components,
       BootStage.scene3d, BootStage.asyncData, BootStage.completion] ∧
    (bootstrap w).consoleWarnings =
      (if w.threeJsDefined then []
       else ["Three.js initialization function not found"]) ++
      (if w.spaceLoadRejects || w.cryptoLoadRejects then
        ["Error loading async data"]
       else []) := by
  simp only [bootstrap, hver]
  simp [h3]

/-- Shared helper: a 3D-scene failure reaches the `catch` of `bootstrap()`:
FAILED, with the completion stage never reached. -/
theorem bootstrap_ok_3dthrow (w : World)
    (hver : verifyServices w.registry = Except.ok ())
    (h3 : (w.threeJsDefined && w.threeJsThrows) = true) :
    (bootstrap w).status = BootStatus.failed ∧
    (bootstrap w).isInitialized = false ∧
    (bootstrap w).stagesCompleted =
      [BootStage.services, BootStage.theme, BootStage.components] := by
  simp only [bootstrap, hver]
  simp [h3, handleBootstrapError]

theorem runOnInit_deps (c : BootComp) : (runOnInit c).deps = c.deps := by
  obtain ⟨k, sel, d, el, o, r, cs, fcs⟩ := c
  cases k <;> rfl

theorem initializeComp_deps (doc : List String) (c : BootComp) :
    (initializeComp doc c).1.deps = c.deps := by
  simp only [initializeComp]
  split
  · simp [runOnInit_deps]
  · rfl

theorem initStep_foldl_deps (doc : List String) (b : Bundle)
    (ks : List CKind) (acc : List BootComp)
    (hacc : ∀ c ∈ acc, c.deps = b) :
    ∀ c ∈ ks.foldl (initStep doc b) acc, c.deps = b := by
  induction ks generalizing acc with
  | nil => simpa using hacc
  | cons k rest ih =>
    rw [List.foldl_cons]
    apply ih
    intro c hc
    simp only [initStep] at hc
    by_cases hr : (initializeComp doc (newComp k b)).2 = true
    · rw [if_pos hr] at hc
      rcases List.mem_append.mp hc with h | h
      · exact hacc c h
      · rw [List.mem_singleton] at h
        subst h
        rw [initializeComp_deps]
        rfl
    · rw [if_neg hr] at hc
      exact hacc c hc

theorem initializeComponents_deps (reg : List (String × Nat))
    (doc : List String) :
    ∀ c ∈ (initializeComponents reg doc).components,
      c.deps = getComponentDependencies reg 0 := by
  intro c hc
  simp only [initializeComponents] at hc
  rcases List.mem_append.mp hc with h | h
  · exact initStep_foldl_deps doc _ _ [] (by simp) c h
  · rw [List.mem_singleton] at h
    subst h
    rw [runOnInit_deps]
    rfl

/-- C2 (counterexample): for a component whose `onInit` hook is `async` —
`CryptoComponent` — `initialize()` invokes `render` strictly before the
operation returned by `onInit` settles, refuting the claim that render fires
only once it settles. -/
theorem render_fires_before_async_onInit_settles :
    initializeTrace true =
      [TraceEv.onInitCall, TraceEv.renderCall, TraceEv.afterViewCall,
       TraceEv.onInitSettle] ∧
    (initializeTrace true).indexOf TraceEv.renderCall <
      (initializeTrace true).indexOf TraceEv.onInitSettle := by
  decide

/-- C2 (amended): for a component whose `onInit` hook is asynchronous,
`initialize()` does not wait for the returned operation: `render` (and
`onAfterViewInit`) run synchronously right after `onInit` is started, and the
operation settles only afterwards; for a synchronous `onInit`, the hook has
settled before `render` runs. -/
theorem render_not_deferred_on_async_onInit :
    ((initializeTrace true).indexOf TraceEv.onInitCall <
        (initializeTrace true).indexOf TraceEv.renderCall ∧
      (initializeTrace true).indexOf TraceEv.renderCall <
        (initializeTrace true).indexOf TraceEv.afterViewCall ∧
      (initializeTrace true).indexOf TraceEv.afterViewCall <
        (initializeTrace true).indexOf TraceEv.onInitSettle) ∧
    (initializeTrace false).indexOf TraceEv.onInitSettle <
      (initializeTrace false).indexOf TraceEv.renderCall := by
  decide

/-- The container contents service.module.js produces: all six required
services registered (reference identities 0-5). -/
def fullRegistry : List (String × Nat) :=
  [("blog", 0), ("crypto", 1), ("court", 2), ("theme", 3), ("space", 4),
   ("notification", 5)]

/-- C3 (counterexample): when the unresolved required name is `notification`
itself (and no `.loading-text` element exists), bootstrap does abort into the
FAILED state before the component stage, but no message is routed through the
notification collaborator and no on-screen fallback appears — refuting the
claim that both user-visible messages accompany every required-service
failure. -/
theorem bootstrap_missing_notification_not_notified :
    (bootstrap { registry := [("blog", 0), ("crypto", 1), ("court", 2),
                              ("theme", 3), ("space", 4)],
                 doc := [], hasLoadingText := false, threeJsDefined := false,
                 threeJsThrows := false, spaceLoadRejects := false,
                 cryptoLoadRejects := false }).status = BootStatus.failed ∧
    BootStage.components ∉
      (bootstrap { registry := [("blog", 0), ("crypto", 1), ("court", 2),
                                ("theme", 3), ("space", 4)],
                   doc := [], hasLoadingText := false, threeJsDefined := false,
                   threeJsThrows := false, spaceLoadRejects := false,
                   cryptoLoadRejects := false }).stagesCompleted ∧
    (bootstrap { registry := [("blog", 0), ("crypto", 1), ("court", 2),
                              ("theme", 3), ("space", 4)],
                 doc := [], hasLoadingText := false, threeJsDefined := false,
                 threeJsThrows := false, spaceLoadRejects := false,
                 cryptoLoadRejects := false }).notificationErrors = [] ∧
    (bootstrap { registry := [("blog", 0), ("crypto", 1), ("court", 2),
                              ("theme", 3), ("space", 4)],
                 doc := [], hasLoadingText := false, threeJsDefined := false,
                 threeJsThrows := false, spaceLoadRejects := false,
                 cryptoLoadRejects := false }).loadingText = none := by
  decide

/-- C3 (amended): if any required service name does not resolve during stage
1, bootstrap aborts before the component stage in the FAILED state; the
on-screen fallback message appears when a `.loading-text` element exists, the
notification-routed message is sent when the notification service itself
resolves, and the global lookup-service-by-name API still resolves every
service registered before the abort. -/
theorem bootstrap_missing_required_service_aborts (w : World)
    (h : ∃ s ∈ requiredServices, lookupName w.registry s = none) :
    (bootstrap w).status = BootStatus.failed ∧
    BootStage.components ∉ (bootstrap w).stagesCompleted ∧
    (bootstrap w).components = [] ∧
    ((lookupName w.registry "notification").isSome = true →
      (bootstrap w).notificationErrors ≠ []) ∧
    (w.hasLoadingText = true → (bootstrap w).loadingText.isSome = true) ∧
    (∀ n, getAppService (bootstrap w) n = lookupName w.registry n) := by
  have hfind : (requiredServices.find?
      (fun s => (lookupName w.registry s).isNone)).isSome = true := by
    rw [List.find?_isSome]
    obtain ⟨s, hs, hnone⟩ := h
    exact ⟨s, hs, by simp [hnone]⟩
  obtain ⟨m, hm⟩ := Option.isSome_iff_exists.mp hfind
  have hver : verifyServices w.registry =
      Except.error ("Required service " ++ m ++ " not found") := by
    unfold verifyServices
    rw [hm]
  simp only [bootstrap, hver]
  refine ⟨rfl, by simp [handleBootstrapError], rfl, ?_, ?_, fun n => rfl⟩
  · intro hns
    obtain ⟨x, hx⟩ := Option.isSome_iff_exists.mp hns
    simp [handleBootstrapError, hx]
  · intro hl
    simp [handleBootstrapError, hl]

/-- Witness for `bootstrap_missing_required_service_aborts`: a registry
missing the `space` service, notification registered, loading text present. -/
theorem bootstrap_missing_required_service_aborts_witness :
    (∃ s ∈ requiredServices,
      lookupName [("blog", 0), ("crypto", 1), ("court", 2), ("theme", 3),
                  ("notification", 5)] s = none) ∧
    ((bootstrap { registry := [("blog", 0), ("crypto", 1), ("court", 2),
                               ("theme", 3), ("notification", 5)],
                  doc := [], hasLoadingText := true, threeJsDefined := true,
                  threeJsThrows := false, spaceLoadRejects := false,
                  cryptoLoadRejects := false }).status = BootStatus.failed ∧
     BootStage.components ∉
       (bootstrap { registry := [("blog", 0), ("crypto", 1), ("court", 2),
                                 ("theme", 3), ("notification", 5)],
                    doc := [], hasLoadingText := true, threeJsDefined := true,
                    threeJsThrows := false, spaceLoadRejects := false,
                    cryptoLoadRejects := false }).stagesCompleted ∧
     (bootstrap { registry := [("blog", 0), ("crypto", 1), ("court", 2),
                               ("theme", 3), ("notification", 5)],
                  doc := [], hasLoadingText := true, threeJsDefined := true,
                  threeJsThrows := false, spaceLoadRejects := false,
                  cryptoLoadRejects := false }).components = [] ∧
     ((lookupName [("blog", 0), ("crypto", 1), ("court", 2), ("theme", 3),
                   ("notification", 5)] "notification").isSome = true →
       (bootstrap { registry := [("blog", 0), ("crypto", 1), ("court", 2),
                                 ("theme", 3), ("notification", 5)],
                    doc := [], hasLoadingText := true, threeJsDefined := true,
                    threeJsThrows := false, spaceLoadRejects := false,
                    cryptoLoadRejects := false }).notificationErrors ≠ []) ∧
     (true = true →
       (bootstrap { registry := [("blog", 0), ("crypto", 1), ("court", 2),
                                 ("theme", 3), ("notification", 5)],
                    doc := [], hasLoadingText := true, threeJsDefined := true,
                    threeJsThrows := false, spaceLoadRejects := false,
                    cryptoLoadRejects := false }).loadingText.isSome = true) ∧
     (∀ n, getAppService
         (bootstrap { registry := [("blog", 0), ("crypto", 1), ("court", 2),
                                   ("theme", 3), ("notification", 5)],
                      doc := [], hasLoadingText := true, threeJsDefined := true,
                      threeJsThrows := false, spaceLoadRejects := false,
                      cryptoLoadRejects := false }) n =
       lookupName [("blog", 0), ("crypto", 1), ("court", 2), ("theme", 3),
                   ("notification", 5)] n)) :=
  ⟨by decide,
   bootstrap_missing_required_service_aborts
     { registry := [("blog", 0), ("crypto", 1), ("court", 2), ("theme", 3),
                    ("notification", 5)],
       doc := [], hasLoadingText := true, threeJsDefined := true,
       threeJsThrows := false, spaceLoadRejects := false,
       cryptoLoadRejects := false }
     (by decide)⟩

/-- C5: with every required service registered and the court mount point
absent from the document at bootstrap time, stage 3 still invokes the court
component's `onInit` — its case list is the (non-empty) service data
afterwards — while its full initialize/attach/render sequence is not run
(no element resolved, zero renders); the instance is kept in the component
list and exposed as `window.courtComponent` for the later external
trigger. -/
theorem bootstrap_court_onInit_without_render (w : World)
    (hreq : ∀ s ∈ requiredServices, (lookupName w.registry s).isSome = true)
    (_hdoc : w.doc.contains "#court-section" = false) :
    ∃ c, (bootstrap w).windowCourtComponent = some c ∧
      c ∈ (bootstrap w).components ∧
      c.onInitRan = true ∧
      c.cases = CourtService.getCases ∧
      c.cases ≠ [] ∧
      c.element = none ∧
      c.renderCount = 0 := by
  have hver := verifyServices_ok w.registry hreq
  obtain ⟨hcomps, hcourt, _, _⟩ := bootstrap_ok_stage3 w hver
  refine ⟨runOnInit (newComp CKind.court (getComponentDependencies w.registry 0)),
    ?_, ?_, ?_, ?_, ?_, ?_, ?_⟩
  · rw [hcourt]
    rfl
  · rw [hcomps]
    simp [initializeComponents]
  · rfl
  · rfl
  · simp [runOnInit, newComp, CourtService.getCases]
  · rfl
  · rfl

/-- Witness for `bootstrap_court_onInit_without_render`: the full registry
with a document holding every mount point except the court section. -/
theorem bootstrap_court_onInit_without_render_witness :
    (∀ s ∈ requiredServices, (lookupName fullRegistry s).isSome = true) ∧
    (["#blog-section", "#crypto-section", "#admin-section"].contains
        "#court-section" = false) ∧
    (∃ c, (bootstrap { registry := fullRegistry,
                       doc := ["#blog-section", "#crypto-section",
                               "#admin-section"],
                       hasLoadingText := true, threeJsDefined := true,
                       threeJsThrows := false, spaceLoadRejects := false,
                       cryptoLoadRejects := false }).windowCourtComponent =
          some c ∧
      c ∈ (bootstrap { registry := fullRegistry,
                       doc := ["#blog-section", "#crypto-section",
                               "#admin-section"],
                       hasLoadingText := true, threeJsDefined := true,
                       threeJsThrows := false, spaceLoadRejects := false,
                       cryptoLoadRejects := false }).components ∧
      c.onInitRan = true ∧
      c.cases = CourtService.getCases ∧
      c.cases ≠ [] ∧
      c.element = none ∧
      c.renderCount = 0) :=
  ⟨by decide, by decide,
   bootstrap_court_onInit_without_render
     { registry := fullRegistry,
       doc := ["#blog-section", "#crypto-section", "#admin-section"],
       hasLoadingText := true, threeJsDefined := true, threeJsThrows := false,
       spaceLoadRejects := false, cryptoLoadRejects := false }
     (by decide) (by decide)⟩

/-- C8 (counterexample): a failure thrown while initializing the 3D scene is
not caught locally — bootstrap enters the FAILED path and the completion
stage is never reached — refuting the claim that every stage-4 failure is
caught and bootstrap still proceeds to completion. -/
theorem bootstrap_3d_failure_aborts :
    (bootstrap { registry := fullRegistry, doc := [], hasLoadingText := true,
                 threeJsDefined := true, threeJsThrows := true,
                 spaceLoadRejects := false, cryptoLoadRejects := false
               }).status = BootStatus.failed ∧
    BootStage.completion ∉
      (bootstrap { registry := fullRegistry, doc := [], hasLoadingText := true,
                   threeJsDefined := true, threeJsThrows := true,
                   spaceLoadRejects := false, cryptoLoadRejects := false
                 }).stagesCompleted ∧
    (bootstrap { registry := fullRegistry, doc := [], hasLoadingText := true,
                 threeJsDefined := true, threeJsThrows := true,
                 spaceLoadRejects := false, cryptoLoadRejects := false
               }).isInitialized = false := by
  decide

/-- C8 (amended): with all required services present, a failure in the async
data-loading stage is caught and logged as a warning and never aborts
bootstrap — the run still reaches the completion stage in the READY state —
whereas a failure raised by the (defined) 3D-scene initializer propagates and
aborts bootstrap into the FAILED path before completion. -/
theorem bootstrap_async_failures_warned_3d_fatal (w : World)
    (hreq : ∀ s ∈ requiredServices, (lookupName w.registry s).isSome = true) :
    ((w.threeJsDefined && w.threeJsThrows) = false →
      (bootstrap w).status = BootStatus.ready ∧
      BootStage.completion ∈ (bootstrap w).stagesCompleted ∧
      ((w.spaceLoadRejects || w.cryptoLoadRejects) = true →
        "Error loading async data" ∈ (bootstrap w).consoleWarnings)) ∧
    ((w.threeJsDefined && w.threeJsThrows) = true →
      (bootstrap w).status = BootStatus.failed ∧
      BootStage.completion ∉ (bootstrap w).stagesCompleted) := by
  have hver := verifyServices_ok w.registry hreq
  constructor
  · intro h3
    obtain ⟨hs, _, hst, hw⟩ := bootstrap_ok_ready w hver h3
    refine ⟨hs, ?_, ?_⟩
    · rw [hst]
      simp
    · intro ha
      rw [hw, ha]
      simp
  · intro h3
    obtain ⟨hs, _, hst⟩ := bootstrap_ok_3dthrow w hver h3
    refine ⟨hs, ?_⟩
    rw [hst]
    simp

/-- Witness for `bootstrap_async_failures_warned_3d_fatal`: the full
registry, 3D scene succeeding, async data loads rejecting. -/
theorem bootstrap_async_failures_warned_3d_fatal_witness :
    (∀ s ∈ requiredServices, (lookupName fullRegistry s).isSome = true) ∧
    ((true && false) = false →
      (bootstrap { registry := fullRegistry, doc := [],
                   hasLoadingText := true, threeJsDefined := true,
                   threeJsThrows := false, spaceLoadRejects := true,
                   cryptoLoadRejects := false }).status = BootStatus.ready ∧
      BootStage.completion ∈
        (bootstrap { registry := fullRegistry, doc := [],
                     hasLoadingText := true, threeJsDefined := true,
                     threeJsThrows := false, spaceLoadRejects := true,
                     cryptoLoadRejects := false }).stagesCompleted ∧
      ((true || false) = true →
        "Error loading async data" ∈
          (bootstrap { registry := fullRegistry, doc := [],
                       hasLoadingText := true, threeJsDefined := true,
                       threeJsThrows := false, spaceLoadRejects := true,
                       cryptoLoadRejects := false }).consoleWarnings)) ∧
    ((true && false) = true →
      (bootstrap { registry := fullRegistry, doc := [],
                   hasLoadingText := true, threeJsDefined := true,
                   threeJsThrows := false, spaceLoadRejects := true,
                   cryptoLoadRejects := false }).status = BootStatus.failed ∧
      BootStage.completion ∉
        (bootstrap { registry := fullRegistry, doc := [],
                     hasLoadingText := true, threeJsDefined := true,
                     threeJsThrows := false, spaceLoadRejects := true,
                     cryptoLoadRejects := false }).stagesCompleted) :=
  ⟨by decide,
   (bootstrap_async_failures_warned_3d_fatal
     { registry := fullRegistry, doc := [], hasLoadingText := true,
       threeJsDefined := true, threeJsThrows := false,
       spaceLoadRejects := true, cryptoLoadRejects := false }
     (by decide)).1,
   (bootstrap_async_failures_warned_3d_fatal
     { registry := fullRegistry, doc := [], hasLoadingText := true,
       threeJsDefined := true, threeJsThrows := false,
       spaceLoadRejects := true, cryptoLoadRejects := false }
     (by decide)).2⟩

/-- C9: with all required services present, one bootstrap run constructs the
dependency bundle exactly once, every constructed component holds that same
bundle object, and any two components resolving the same service name obtain
the identical service instance. -/
theorem bootstrap_single_shared_bundle (w : World)
    (hreq : ∀ s ∈ requiredServices, (lookupName w.registry s).isSome = true) :
    (bootstrap w).bundleAllocs = 1 ∧
    ∃ b, (bootstrap w).bundle = some b ∧
      (∀ c ∈ (bootstrap w).components, c.deps = b) ∧
      ∀ c1 ∈ (bootstrap w).components, ∀ c2 ∈ (bootstrap w).components,
        ∀ n, c1.deps.getDep n = c2.deps.getDep n := by
  have hver := verifyServices_ok w.registry hreq
  obtain ⟨hcomps, _, hbundle, hallocs⟩ := bootstrap_ok_stage3 w hver
  have hdeps := initializeComponents_deps w.registry w.doc
  refine ⟨by rw [hallocs]; rfl,
    getComponentDependencies w.registry 0, by rw [hbundle]; rfl, ?_, ?_⟩
  · intro c hc
    rw [hcomps] at hc
    exact hdeps c hc
  · intro c1 hc1 c2 hc2 n
    rw [hcomps] at hc1 hc2
    rw [hdeps c1 hc1, hdeps c2 hc2]

/-- Witness for `bootstrap_single_shared_bundle`: the full registry with all
mount points present. -/
theorem bootstrap_single_shared_bundle_witness :
    (∀ s ∈ requiredServices, (lookupName fullRegistry s).isSome = true) ∧
    ((bootstrap { registry := fullRegistry,
                  doc := ["#blog-section", "#crypto-section", "#court-section",
                          "#admin-section"],
                  hasLoadingText := true, threeJsDefined := true,
                  threeJsThrows := false, spaceLoadRejects := false,
                  cryptoLoadRejects := false }).bundleAllocs = 1 ∧
     ∃ b, (bootstrap { registry := fullRegistry,
                       doc := ["#blog-section", "#crypto-section",
                               "#court-section", "#admin-section"],
                       hasLoadingText := true, threeJsDefined := true,
                       threeJsThrows := false, spaceLoadRejects := false,
                       cryptoLoadRejects := false }).bundle = some b ∧
       (∀ c ∈ (bootstrap { registry := fullRegistry,
                           doc := ["#blog-section", "#crypto-section",
                                   "#court-section", "#admin-section"],
                           hasLoadingText := true, threeJsDefined := true,
                           threeJsThrows := false, spaceLoadRejects := false,
                           cryptoLoadRejects := false }).components,
         c.deps = b) ∧
       ∀ c1 ∈ (bootstrap { registry := fullRegistry,
                           doc := ["#blog-section", "#crypto-section",
                                   "#court-section", "#admin-section"],
                           hasLoadingText := true, threeJsDefined := true,
                           threeJsThrows := false, spaceLoadRejects := false,
                           cryptoLoadRejects := false }).components,
         ∀ c2 ∈ (bootstrap { registry := fullRegistry,
                             doc := ["#blog-section", "#crypto-section",
                                     "#court-section", "#admin-section"],
                             hasLoadingText := true, threeJsDefined := true,
                             threeJsThrows := false, spaceLoadRejects := false,
                             cryptoLoadRejects := false }).components,
           ∀ n, c1.deps.getDep n = c2.deps.getDep n) :=
  ⟨by decide,
   bootstrap_single_shared_bundle
     { registry := fullRegistry,
       doc := ["#blog-section", "#crypto-section", "#court-section",
               "#admin-section"],
       hasLoadingText := true, threeJsDefined := true, threeJsThrows := false,
       spaceLoadRejects := false, cryptoLoadRejects := false }
     (by decide)⟩
